import Mathlib

/-!
Verification of the QAStudio playwright reporter delivery pipeline.

The development shallowly embeds the reporter logic of the repository:

* common data model and the status mapping of src/utils.ts;
* the gate-based streaming variant of src/index.ts (namespace
  QAStudioReporter): a readiness gate resolved by onBegin, per-test
  never-rejecting upload tasks tracked in flushPromises, a drain step
  (sendTestResults) that collects upload failures, and the reconciled
  summary passed to completeTestRun;
* the batched variant (namespace QAStudioReporterBatched): a result queue
  flushed when it reaches batchSize and at drain, pruned only by confirmed
  titles, left untouched on a batch failure.

Remote behaviour (the API client) is universally quantified as a record of
functions returning Except values: an Except.error models a rejected
promise or thrown exception of the corresponding client call.  The
scheduling of the single-threaded event loop is modelled by resolving each
tracked promise to its eventual settled value, which is a pure function of
the reporter state fixed at onBegin and of the API behaviour; completion
order does not influence any settled value or the collected failure list,
so the pure model is faithful to the observable outcomes.
-/

/-- Playwright final statuses, exactly the values of TestResult.status. -/
inductive PwStatus where
  | passed
  | failed
  | timedOut
  | skipped
  | interrupted
deriving Repr, DecidableEq

/-- The string form of a Playwright status, as the TS code receives it. -/
def PwStatus.raw : PwStatus → String
  | .passed => "passed"
  | .failed => "failed"
  | .timedOut => "timedOut"
  | .skipped => "skipped"
  | .interrupted => "interrupted"

/-- mapTestStatus from src/utils.ts: maps a Playwright status string to the
wire status; every unrecognized input falls through to the default branch. -/
def mapTestStatus (status : String) : String :=
  match status with
  | "passed" => "passed"
  | "failed" => "failed"
  | "timedOut" => "timedout"
  | "skipped" => "skipped"
  | "interrupted" => "skipped"
  | _ => "failed"

/-- The four mutable counters of the reporter class. -/
structure Counters where
  totalTests : Nat
  passedTests : Nat
  failedTests : Nat
  skippedTests : Nat
deriving Repr, DecidableEq

def Counters.init : Counters := ⟨0, 0, 0, 0⟩

/-- The counter update of onTestEnd for a final-retry result: totalTests is
incremented and the switch on result.status bumps one bucket (passed;
failed and timedOut; skipped and interrupted).  Identical in both reporter
variants. -/
def bumpCounters (c : Counters) (s : PwStatus) : Counters :=
  let c1 := { c with totalTests := c.totalTests + 1 }
  match s with
  | .passed => { c1 with passedTests := c1.passedTests + 1 }
  | .failed => { c1 with failedTests := c1.failedTests + 1 }
  | .timedOut => { c1 with failedTests := c1.failedTests + 1 }
  | .skipped => { c1 with skippedTests := c1.skippedTests + 1 }
  | .interrupted => { c1 with skippedTests := c1.skippedTests + 1 }

/-- Attachment categories of determineAttachmentType. -/
inductive AttachmentType where
  | screenshot
  | video
  | trace
  | other
deriving Repr, DecidableEq

/-- An extracted attachment buffer; only the fields the pipeline control
flow inspects (name and category) are modelled, the bytes are opaque. -/
structure AttachmentRef where
  name : String
  type : AttachmentType
deriving Repr, DecidableEq

/-- The converted wire record; of the fields convertTestResult builds, only
the ones the pipeline control flow reads (title for queue pruning and
failure records, status via mapTestStatus) are modelled. -/
structure QARecord where
  title : String
  status : String
deriving Repr, DecidableEq

/-- A per-result identifier entry of a submitTestResults response. -/
structure ResultIdEntry where
  testResultId : String
  title : String
deriving Repr, DecidableEq

/-- A per-result error entry of a submitTestResults response. -/
structure SubmitError where
  testTitle : String
  error : String
deriving Repr, DecidableEq

/-- Response shape of the submitTestResults API call. -/
structure SubmitResponse where
  processedCount : Nat
  results : List ResultIdEntry
  errors : List SubmitError
deriving Repr, DecidableEq

/-- The summary eventually passed to completeTestRun. -/
structure Summary where
  total : Nat
  passed : Nat
  failed : Nat
  skipped : Nat
deriving Repr, DecidableEq

/-- An entry of the uploadFailures list (types.ts UploadFailure). -/
structure UploadFailure where
  testTitle : String
  error : String
deriving Repr, DecidableEq

/-- The settled value of a tracked upload promise:
success true, or success false with an error string (types.ts
PendingUpload.promise value). -/
inductive UploadOutcome where
  | success
  | failure (error : String)
deriving Repr, DecidableEq

/-- Behaviour of the QAStudioAPIClient as observed by the reporter: each
method either fulfills with a response value or rejects with an error
message (an Except.error models a rejection or thrown exception). -/
structure ApiBehaviour where
  createTestRun : Except String String
  submitTestResults : String → List QARecord → Except String SubmitResponse
  uploadAttachment : String → String → Except String Unit
  completeTestRun : Summary → Except String Unit

/-- The reporter options the pipeline control flow reads.  Sanitization
maps an empty testRunId string to none, so Option models the sanitized
field.  batchSize exists only in the batched variant and is ignored by the
streaming one. -/
structure Options where
  createTestRun : Bool
  testRunId : Option String
  uploadScreenshots : Bool
  uploadVideos : Bool
  batchSize : Nat
  silent : Bool
deriving Repr, DecidableEq

/-- The attachment filter of onTestEnd: drops screenshots when
uploadScreenshots is off and videos when uploadVideos is off. -/
def filterAttachments (opts : Options) (atts : List AttachmentRef) : List AttachmentRef :=
  atts.filter fun att =>
    if att.type = .screenshot ∧ opts.uploadScreenshots = false then false
    else if att.type = .video ∧ opts.uploadVideos = false then false
    else true

/-- convertTestResult from src/utils.ts, restricted to the fields the
pipeline reads: the title and the mapped wire status. -/
def convertTestResult (title : String) (status : PwStatus) : QARecord :=
  { title := title, status := mapTestStatus status.raw }

/-- One onTestEnd input: the test identity and final result fields the
reporter inspects. -/
structure TestEvent where
  title : String
  status : PwStatus
  retry : Nat
  retries : Nat
  attachments : List AttachmentRef
deriving Repr, DecidableEq

/-- A producer step: Playwright calling onTestBegin or onTestEnd. -/
inductive RunStep where
  | testBegin (title : String)
  | testEnd (e : TestEvent)
deriving Repr, DecidableEq

namespace QAStudioReporter

/-!
The gate-based streaming reporter variant of src/index.ts (the variant
declaring testRunReadyPromise).  The readiness gate is the promise
resolved exactly once by the finally block of onBegin; its terminal
observation is the pair of state.testRunId and testRunCreationError,
which no later code mutates.
-/

/-- The terminal observation a gate waiter reads after the readiness
promise resolves: the fixed pair of state.testRunId and
testRunCreationError. -/
structure GateValue where
  testRunId : Option String
  creationError : Option String
deriving Repr, DecidableEq

/-- The readiness gate state machine: a one-shot promise is pending until
resolved with a terminal value. -/
inductive GateState where
  | pending
  | resolved (v : GateValue)
deriving Repr, DecidableEq

/-- Resolving the gate: a JS promise resolve call transitions a pending
promise and is a no-op on an already resolved one. -/
def resolveGate (g : GateState) (v : GateValue) : GateState :=
  match g with
  | .pending => .resolved v
  | .resolved w => .resolved w

/-- Awaiting the gate: returns the terminal value once resolved (a waiter
suspended on a pending gate observes the value after resolution). -/
def awaitGate (g : GateState) : Option GateValue :=
  match g with
  | .pending => none
  | .resolved v => some v

/-- The reporter fields fixed by onBegin: state.testRunId,
testRunCreationError, and the readiness gate. -/
structure BeginState where
  testRunId : Option String
  testRunCreationError : Option String
  gate : GateState
deriving Repr, DecidableEq

/-- onBegin: creates the test run when createTestRun is set and no
testRunId was supplied; a rejected createTestRun call stores the wrapped
error and leaves testRunId unset; the finally block resolves the gate in
every path.  handleError only logs (silent) or throws after the state is
written, so the returned state is the same in both modes. -/
def onBegin (opts : Options) (api : ApiBehaviour) : BeginState :=
  if opts.createTestRun = true ∧ opts.testRunId = none then
    match api.createTestRun with
    | .ok id =>
        { testRunId := some id
        , testRunCreationError := none
        , gate := resolveGate .pending { testRunId := some id, creationError := none } }
    | .error e =>
        { testRunId := none
        , testRunCreationError := some e
        , gate := resolveGate .pending { testRunId := none, creationError := some e } }
  else
    { testRunId := opts.testRunId
    , testRunCreationError := none
    , gate := resolveGate .pending { testRunId := opts.testRunId, creationError := none } }

/-- A network action performed by an upload task, in program order. -/
inductive Action where
  | submitResults (titles : List String)
  | uploadAtt (testResultId : String) (name : String) (outcome : Except String Unit)

/-- uploadAttachments: each attachment upload runs the client call and
catches its rejection (the catch only logs and does not rethrow), so the
whole step never rejects; the performed uploads are returned as a trace. -/
def uploadAttachments (api : ApiBehaviour) (testResultId : String)
    (attachments : List AttachmentRef) : List Action :=
  attachments.map fun a =>
    .uploadAtt testResultId a.name (api.uploadAttachment testResultId a.name)

/-- sendTestResult: submits the single record; on a fulfilled response,
attachments are uploaded only when the response carries result
identifiers and the attachment list is nonempty, using the first
testResultId; response errors and processedCount are only logged.
The returned Except is the task promise before its final then/catch
normalization (error = rejection), paired with the action trace. -/
def sendTestResult (api : ApiBehaviour) (testRunId : Option String) (r : QARecord)
    (attachments : List AttachmentRef) : Except String Unit × List Action :=
  match testRunId with
  | none => (.ok (), [])
  | some runId =>
    match api.submitTestResults runId [r] with
    | .error e => (.error e, [.submitResults [r.title]])
    | .ok resp =>
      match resp.results with
      | [] => (.ok (), [.submitResults [r.title]])
      | rid :: _ =>
        if attachments.isEmpty then (.ok (), [.submitResults [r.title]])
        else (.ok (), .submitResults [r.title] :: uploadAttachments api rid.testResultId attachments)

/-- The promise chain of onTestEnd before its final normalization: await
the gate, then throw the wrapped creation error (or the generic message)
when no testRunId exists, else run sendTestResult. -/
def sendChain (api : ApiBehaviour) (sess : BeginState) (r : QARecord)
    (attachments : List AttachmentRef) : Except String Unit × List Action :=
  match sess.testRunId with
  | none =>
    match sess.testRunCreationError with
    | some m => (.error ("Test run creation failed: " ++ m), [])
    | none => (.error "Test run was not created successfully", [])
  | some _ => sendTestResult api sess.testRunId r attachments

/-- The settled value of the tracked promise: the final then maps
fulfillment to success true and the final catch maps any rejection to
success false with the error message, so the tracked promise always
fulfills. -/
def taskOutcome (api : ApiBehaviour) (sess : BeginState) (r : QARecord)
    (attachments : List AttachmentRef) : UploadOutcome × List Action :=
  match sendChain api sess r attachments with
  | (.ok _, tr) => (.success, tr)
  | (.error e, tr) => (.failure e, tr)

/-- A tracked pending upload (types.ts PendingUpload), resolved to its
eventual settled value and trace. -/
structure PendingUpload where
  outcome : UploadOutcome
  actions : List Action
  testTitle : String

/-- The mutable reporter state during a run. -/
structure RunState where
  sess : BeginState
  tests : List String
  counters : Counters
  flushPromises : List PendingUpload
  uploadFailures : List UploadFailure

def initialRunState (sess : BeginState) : RunState :=
  { sess := sess, tests := [], counters := Counters.init
  , flushPromises := [], uploadFailures := [] }

/-- onTestBegin: registers the test in state.tests. -/
def onTestBegin (st : RunState) (title : String) : RunState :=
  { st with tests := title :: st.tests }

/-- onTestEnd: returns early when the test was never registered; on the
final retry it bumps the counters, converts the record, filters the
attachments and tracks one upload task; a non-final retry changes
nothing. -/
def onTestEnd (api : ApiBehaviour) (opts : Options) (st : RunState) (e : TestEvent) : RunState :=
  if st.tests.contains e.title then
    if e.retry = e.retries then
      let qaResult := convertTestResult e.title e.status
      let filtered := filterAttachments opts e.attachments
      let task := taskOutcome api st.sess qaResult filtered
      { st with
          counters := bumpCounters st.counters e.status
        , flushPromises := st.flushPromises ++ [⟨task.1, task.2, e.title⟩] }
    else st
  else st

def runStep (api : ApiBehaviour) (opts : Options) (st : RunState) : RunStep → RunState
  | .testBegin title => onTestBegin st title
  | .testEnd e => onTestEnd api opts st e

def runSteps (api : ApiBehaviour) (opts : Options) (st : RunState)
    (steps : List RunStep) : RunState :=
  steps.foldl (runStep api opts) st

/-- The drain step sendTestResults: returns early when no testRunId is
available; otherwise awaits every tracked promise, appends a failure
record for each unsuccessful settled value, and clears flushPromises. -/
def sendTestResults (st : RunState) : RunState :=
  match st.sess.testRunId with
  | none => st
  | some _ =>
    if st.flushPromises.length > 0 then
      let failures := st.flushPromises.filterMap fun p =>
        match p.outcome with
        | .success => none
        | .failure e => some { testTitle := p.testTitle, error := e }
      { st with
          uploadFailures := st.uploadFailures ++ failures
        , flushPromises := [] }
    else st

/-- calculateUploadedCounts: the total subtracts the collected upload
failures while the status buckets keep the execution counts. -/
def calculateUploadedCounts (st : RunState) : Summary :=
  { total := st.counters.totalTests - st.uploadFailures.length
  , passed := st.counters.passedTests
  , failed := st.counters.failedTests
  , skipped := st.counters.skippedTests }

/-- The failure diagnostic onEnd prints: a single deduplicated message
when a creation error exists and every failure reason equals its wrapped
message, else one block enumerating the individual failures. -/
inductive Diagnostic where
  | dedupCreationFailure (totalTests : Nat) (cause : String)
  | individualFailures (failures : List UploadFailure) (totalTests : Nat)
deriving Repr, DecidableEq

/-- The diagnostic branch of onEnd over the collected uploadFailures. -/
def failureDiagnostic (st : RunState) : Option Diagnostic :=
  if st.uploadFailures.length > 0 then
    match st.sess.testRunCreationError with
    | some cause =>
      if st.uploadFailures.all fun f => f.error == "Test run creation failed: " ++ cause then
        some (.dedupCreationFailure st.counters.totalTests cause)
      else some (.individualFailures st.uploadFailures st.counters.totalTests)
    | none => some (.individualFailures st.uploadFailures st.counters.totalTests)
  else none

/-- The observable result of onEnd: the final state, the printed failure
diagnostic, and the summary passed to completeTestRun when it is called
(it is called exactly when a testRunId exists). -/
structure EndResult where
  state : RunState
  diagnostic : Option Diagnostic
  completedSummary : Option Summary

/-- onEnd: drains via sendTestResults, reports failures, then completes
the run with the reconciled counts when a testRunId exists.  A rejected
completeTestRun call is routed to handleError and changes no state. -/
def onEnd (st : RunState) : EndResult :=
  let st1 := sendTestResults st
  let diag := failureDiagnostic st1
  match st1.sess.testRunId with
  | none => { state := st1, diagnostic := diag, completedSummary := none }
  | some _ =>
      { state := st1, diagnostic := diag
      , completedSummary := some (calculateUploadedCounts st1) }

/-- A whole reporter run: onBegin, the producer steps, then onEnd. -/
def runReporter (api : ApiBehaviour) (opts : Options) (steps : List RunStep) : EndResult :=
  onEnd (runSteps api opts (initialRunState (onBegin opts api)) steps)

end QAStudioReporter

namespace QAStudioReporterBatched

/-!
The batched reporter variant (the source file keeping a resultQueue): a
final-retry result is queued, the queue is flushed when its length
reaches batchSize and once more at drain, a fulfilled batch response
prunes only the confirmed titles from the queue, and a rejected batch
leaves the queue untouched.  Flushes are modelled with the network
response arriving before the next reporter callback runs, the resolution
every claim about the queue contents refers to.
-/

/-- A queued result with its pending attachments (part of the resultQueue
entries). -/
structure QueueItem where
  result : QARecord
  attachments : List AttachmentRef
deriving Repr, DecidableEq

/-- The observable effect of one flushResults invocation: the titles
submitted in its single batch request and the response the request
settled with. -/
structure FlushRecord where
  submittedTitles : List String
  outcome : Except String SubmitResponse

/-- The mutable state of the batched reporter. -/
structure BRunState where
  testRunId : Option String
  tests : List String
  counters : Counters
  resultQueue : List QueueItem
  flushLog : List FlushRecord

/-- onBegin of the batched variant: same creation logic, but only the
testRunId is stored (a creation error is only routed to handleError). -/
def onBegin (opts : Options) (api : ApiBehaviour) : Option String :=
  if opts.createTestRun = true ∧ opts.testRunId = none then
    match api.createTestRun with
    | .ok id => some id
    | .error _ => none
  else opts.testRunId

def initialState (testRunId : Option String) : BRunState :=
  { testRunId := testRunId, tests := [], counters := Counters.init
  , resultQueue := [], flushLog := [] }

/-- flushResults: returns early on an empty queue or a missing testRunId;
otherwise submits every currently queued record in one request.  On a
fulfilled response the queue keeps exactly the items whose title the
response did not confirm as processed; on a rejected request the queue is
untouched (handleError only logs or throws inside the tracked flush
promise). -/
def flushResults (api : ApiBehaviour) (st : BRunState) : BRunState :=
  match st.testRunId with
  | none => st
  | some runId =>
    if st.resultQueue.isEmpty then st
    else
      match api.submitTestResults runId (st.resultQueue.map QueueItem.result) with
      | .ok resp =>
        let processedTitles := resp.results.map ResultIdEntry.title
        let queue1 :=
          if resp.results.length > 0 then
            st.resultQueue.filter fun item => !(processedTitles.contains item.result.title)
          else st.resultQueue
        { st with
            resultQueue := queue1
          , flushLog := st.flushLog ++
              [{ submittedTitles := (st.resultQueue.map QueueItem.result).map QARecord.title
               , outcome := .ok resp }] }
      | .error e =>
        { st with
            flushLog := st.flushLog ++
              [{ submittedTitles := (st.resultQueue.map QueueItem.result).map QARecord.title
               , outcome := .error e }] }

/-- onTestEnd of the batched variant: on the final retry the counters are
bumped; when a testRunId exists the converted record is queued with its
filtered attachments and a flush is triggered once the queue length
reaches batchSize. -/
def onTestEnd (api : ApiBehaviour) (opts : Options) (st : BRunState) (e : TestEvent) : BRunState :=
  if st.tests.contains e.title then
    if e.retry = e.retries then
      let st1 := { st with counters := bumpCounters st.counters e.status }
      match st1.testRunId with
      | none => st1
      | some _ =>
        let item : QueueItem :=
          { result := convertTestResult e.title e.status
          , attachments := filterAttachments opts e.attachments }
        let st2 := { st1 with resultQueue := st1.resultQueue ++ [item] }
        if st2.resultQueue.length ≥ opts.batchSize then flushResults api st2 else st2
    else st
  else st

/-- onTestBegin: registers the test. -/
def onTestBegin (st : BRunState) (title : String) : BRunState :=
  { st with tests := title :: st.tests }

def runStep (api : ApiBehaviour) (opts : Options) (st : BRunState) : RunStep → BRunState
  | .testBegin title => onTestBegin st title
  | .testEnd e => onTestEnd api opts st e

def runSteps (api : ApiBehaviour) (opts : Options) (st : BRunState)
    (steps : List RunStep) : BRunState :=
  steps.foldl (runStep api opts) st

/-- The drain step sendTestResults of the batched variant: flushes the
remaining queue when a testRunId exists, then awaits the tracked flush
promises (already settled in this resolution). -/
def sendTestResults (api : ApiBehaviour) (st : BRunState) : BRunState :=
  match st.testRunId with
  | none => st
  | some _ => if st.resultQueue.length > 0 then flushResults api st else st

end QAStudioReporterBatched

namespace QAStudioReporter

/-- Run-wide invariant of the streaming reporter state before the drain:
the counters are consistent, every final-retry result is tracked by
exactly one pending upload, and no failure has been collected yet. -/
def StreamInv (st : RunState) : Prop :=
  st.counters.totalTests
      = st.counters.passedTests + st.counters.failedTests + st.counters.skippedTests ∧
  st.flushPromises.length = st.counters.totalTests ∧
  st.uploadFailures = []

end QAStudioReporter

/-- API behaviour for witness runs: session creation succeeds with
run-1, every result submission is rejected with boom. -/
def apiSubmitFail : ApiBehaviour :=
  { createTestRun := .ok "run-1"
  , submitTestResults := fun _ _ => .error "boom"
  , uploadAttachment := fun _ _ => .ok ()
  , completeTestRun := fun _ => .ok () }

/-- API behaviour for the failed-creation runs: createTestRun rejects
with quota exceeded and no other call is reachable. -/
def apiQuota : ApiBehaviour :=
  { createTestRun := .error "quota exceeded"
  , submitTestResults := fun _ _ => .error "unreachable"
  , uploadAttachment := fun _ _ => .ok ()
  , completeTestRun := fun _ => .ok () }

/-- The option defaults of the reporter constructor. -/
def optsDefault : Options :=
  { createTestRun := true, testRunId := none, uploadScreenshots := true
  , uploadVideos := true, batchSize := 50, silent := true }

/-- One passed test reported at its only attempt. -/
def stepsOnePassed : List RunStep :=
  [ .testBegin "t1"
  , .testEnd { title := "t1", status := .passed, retry := 0, retries := 0, attachments := [] } ]

/-- A helper producing the steps of n passed tests named t1 ... tn. -/
def stepsPassed (titles : List String) : List RunStep :=
  titles.flatMap fun t =>
    [ .testBegin t
    , .testEnd { title := t, status := .passed, retry := 0, retries := 0, attachments := [] } ]

/-- Five distinct passed tests. -/
def stepsFivePassed : List RunStep :=
  stepsPassed ["t1", "t2", "t3", "t4", "t5"]

/-- API behaviour where the primary submission succeeds with one result
identifier but every attachment upload is rejected. -/
def apiAttachmentFail : ApiBehaviour :=
  { createTestRun := .ok "run-1"
  , submitTestResults := fun _ rs =>
      .ok { processedCount := rs.length
          , results := rs.map fun r => { testResultId := "res-1", title := r.title }
          , errors := [] }
  , uploadAttachment := fun _ _ => .error "disk full"
  , completeTestRun := fun _ => .ok () }

/-- A session state after a successful creation of run-1. -/
def sessReady : QAStudioReporter.BeginState :=
  { testRunId := some "run-1"
  , testRunCreationError := none
  , gate := .resolved { testRunId := some "run-1", creationError := none } }

def recordT1 : QARecord := { title := "t1", status := "passed" }

def oneScreenshot : List AttachmentRef := [{ name := "shot.png", type := .screenshot }]

/-- API behaviour whose batch submission is always rejected. -/
def apiBatchReject : ApiBehaviour :=
  { createTestRun := .ok "run-1"
  , submitTestResults := fun _ _ => .error "service unavailable"
  , uploadAttachment := fun _ _ => .ok ()
  , completeTestRun := fun _ => .ok () }

/-- A batched reporter state with one queued record for run-1. -/
def queuedBatchState : QAStudioReporterBatched.BRunState :=
  { testRunId := some "run-1"
  , tests := ["t1"]
  , counters := ⟨1, 1, 0, 0⟩
  , resultQueue := [{ result := recordT1, attachments := [] }]
  , flushLog := [] }

namespace QAStudioReporter

lemma bumpCounters_totalTests (c : Counters) (s : PwStatus) :
    (bumpCounters c s).totalTests = c.totalTests + 1 := by
  cases s <;> simp [bumpCounters]

lemma bumpCounters_bucketSum (c : Counters) (s : PwStatus) :
    (bumpCounters c s).passedTests + (bumpCounters c s).failedTests
        + (bumpCounters c s).skippedTests
      = c.passedTests + c.failedTests + c.skippedTests + 1 := by
  cases s <;> simp [bumpCounters] <;> omega

lemma onTestEnd_counters (api : ApiBehaviour) (opts : Options) (st : RunState) (e : TestEvent) :
    (onTestEnd api opts st e).counters =
      if st.tests.contains e.title ∧ e.retry = e.retries
      then bumpCounters st.counters e.status else st.counters := by
  unfold onTestEnd
  by_cases h1 : st.tests.contains e.title <;> by_cases h2 : e.retry = e.retries <;>
    simp_all

lemma onTestEnd_flushPromises_length (api : ApiBehaviour) (opts : Options)
    (st : RunState) (e : TestEvent) :
    (onTestEnd api opts st e).flushPromises.length =
      if st.tests.contains e.title ∧ e.retry = e.retries
      then st.flushPromises.length + 1 else st.flushPromises.length := by
  unfold onTestEnd
  by_cases h1 : st.tests.contains e.title <;> by_cases h2 : e.retry = e.retries <;>
    simp_all

lemma onTestEnd_uploadFailures (api : ApiBehaviour) (opts : Options)
    (st : RunState) (e : TestEvent) :
    (onTestEnd api opts st e).uploadFailures = st.uploadFailures := by
  unfold onTestEnd
  by_cases h1 : st.tests.contains e.title <;> by_cases h2 : e.retry = e.retries <;>
    simp_all

lemma onTestEnd_sess (api : ApiBehaviour) (opts : Options)
    (st : RunState) (e : TestEvent) :
    (onTestEnd api opts st e).sess = st.sess := by
  unfold onTestEnd
  by_cases h1 : st.tests.contains e.title <;> by_cases h2 : e.retry = e.retries <;>
    simp_all

lemma runStep_streamInv (api : ApiBehaviour) (opts : Options) (st : RunState)
    (step : RunStep) (h : StreamInv st) : StreamInv (runStep api opts st step) := by
  obtain ⟨h1, h2, h3⟩ := h
  cases step with
  | testBegin title =>
      exact ⟨h1, h2, h3⟩
  | testEnd e =>
      refine ⟨?_, ?_, ?_⟩
      · rw [runStep, onTestEnd_counters]
        split
        · rw [bumpCounters_totalTests, bumpCounters_bucketSum, h1]
        · exact h1
      · rw [runStep, onTestEnd_flushPromises_length, onTestEnd_counters]
        split
        · rw [bumpCounters_totalTests, h2]
        · exact h2
      · rw [runStep, onTestEnd_uploadFailures]
        exact h3

lemma runSteps_cons (api : ApiBehaviour) (opts : Options) (st : RunState)
    (a : RunStep) (l : List RunStep) :
    runSteps api opts st (a :: l) = runSteps api opts (runStep api opts st a) l := rfl

lemma runSteps_streamInv (api : ApiBehaviour) (opts : Options) :
    ∀ (steps : List RunStep) (st : RunState), StreamInv st →
      StreamInv (runSteps api opts st steps) := by
  intro steps
  induction steps with
  | nil => intro st h; exact h
  | cons a l ih =>
      intro st h
      rw [runSteps_cons]
      exact ih _ (runStep_streamInv api opts st a h)

lemma runStep_sess (api : ApiBehaviour) (opts : Options) (st : RunState) (a : RunStep) :
    (runStep api opts st a).sess = st.sess := by
  cases a with
  | testBegin title => rfl
  | testEnd e => exact onTestEnd_sess api opts st e

lemma runSteps_sess (api : ApiBehaviour) (opts : Options) :
    ∀ (steps : List RunStep) (st : RunState),
      (runSteps api opts st steps).sess = st.sess := by
  intro steps
  induction steps with
  | nil => intro st; rfl
  | cons a l ih =>
      intro st
      rw [runSteps_cons, ih, runStep_sess]

lemma initial_streamInv (sess : BeginState) : StreamInv (initialRunState sess) := by
  refine ⟨rfl, rfl, rfl⟩

end QAStudioReporter

namespace QAStudioReporter

lemma sendTestResults_counters (st : RunState) :
    (sendTestResults st).counters = st.counters := by
  unfold sendTestResults
  split
  · rfl
  · split
    · rfl
    · rfl

lemma sendTestResults_sess (st : RunState) :
    (sendTestResults st).sess = st.sess := by
  unfold sendTestResults
  split
  · rfl
  · split
    · rfl
    · rfl

lemma sendTestResults_uploadFailures_length (st : RunState) (h3 : st.uploadFailures = []) :
    (sendTestResults st).uploadFailures.length ≤ st.flushPromises.length := by
  unfold sendTestResults
  split
  · simp [h3]
  · split
    · simpa [h3] using List.length_filterMap_le _ st.flushPromises
    · simp [h3]

lemma onEnd_state (st : RunState) : (onEnd st).state = sendTestResults st := by
  simp only [onEnd]
  split <;> rfl

lemma onEnd_summary_eq (st : RunState) (s : Summary)
    (h : (onEnd st).completedSummary = some s) :
    s = calculateUploadedCounts (sendTestResults st) := by
  simp only [onEnd] at h
  split at h
  · exact absurd h (by simp)
  · exact (Option.some.inj h).symm

end QAStudioReporter

namespace QAStudioReporterBatched

lemma flushResults_counters (api : ApiBehaviour) (st : BRunState) :
    (flushResults api st).counters = st.counters := by
  unfold flushResults
  split
  · rfl
  · split
    · rfl
    · split
      · rfl
      · rfl

lemma flushResults_tests (api : ApiBehaviour) (st : BRunState) :
    (flushResults api st).tests = st.tests := by
  unfold flushResults
  split
  · rfl
  · split
    · rfl
    · split
      · rfl
      · rfl

lemma flushResults_testRunId (api : ApiBehaviour) (st : BRunState) :
    (flushResults api st).testRunId = st.testRunId := by
  unfold flushResults
  split
  · rfl
  · split
    · rfl
    · split
      · rfl
      · rfl

lemma onTestEnd_counters_batched (api : ApiBehaviour) (opts : Options) (st : BRunState) (e : TestEvent) :
    (onTestEnd api opts st e).counters =
      if st.tests.contains e.title ∧ e.retry = e.retries
      then bumpCounters st.counters e.status else st.counters := by
  unfold onTestEnd
  by_cases h1 : st.tests.contains e.title <;> by_cases h2 : e.retry = e.retries <;>
    simp_all
  cases hid : st.testRunId with
  | none => simp [hid]
  | some rid =>
      simp only [hid]
      split
      · rw [flushResults_counters]
      · rfl

lemma runSteps_cons_batched (api : ApiBehaviour) (opts : Options) (st : BRunState)
    (a : RunStep) (l : List RunStep) :
    runSteps api opts st (a :: l) = runSteps api opts (runStep api opts st a) l := rfl

lemma runSteps_counters_consistent (api : ApiBehaviour) (opts : Options) :
    ∀ (steps : List RunStep) (st : BRunState),
      st.counters.totalTests
          = st.counters.passedTests + st.counters.failedTests + st.counters.skippedTests →
      (runSteps api opts st steps).counters.totalTests
          = (runSteps api opts st steps).counters.passedTests
            + (runSteps api opts st steps).counters.failedTests
            + (runSteps api opts st steps).counters.skippedTests := by
  intro steps
  induction steps with
  | nil => intro st h; exact h
  | cons a l ih =>
      intro st h
      rw [runSteps_cons_batched]
      refine ih _ ?_
      cases a with
      | testBegin title => exact h
      | testEnd e =>
          rw [runStep, onTestEnd_counters_batched]
          split
          · rw [QAStudioReporter.bumpCounters_totalTests,
              QAStudioReporter.bumpCounters_bucketSum, h]
          · exact h

end QAStudioReporterBatched

namespace QAStudioReporter

/-- Claim C4: awaiting the readiness gate any number of times, by any
number of waiters, before or after it resolves, yields the same single
terminal observation: after onBegin completes the gate is resolved with
exactly the pair of state.testRunId and testRunCreationError, awaitGate
(the observation every waiter makes, being a pure read) returns that
fixed pair, and any further resolve call leaves the gate unchanged, so
the gate resolves at most once. -/
theorem c4_gate_single_terminal_observation (opts : Options) (api : ApiBehaviour) :
    awaitGate (onBegin opts api).gate
      = some { testRunId := (onBegin opts api).testRunId
             , creationError := (onBegin opts api).testRunCreationError } ∧
    (∀ v, resolveGate (onBegin opts api).gate v = (onBegin opts api).gate) ∧
    (∀ v w, resolveGate (GateState.resolved v) w = GateState.resolved v) := by
  refine ⟨?_, ?_, fun v w => rfl⟩
  · unfold onBegin
    split
    · cases h : api.createTestRun <;> simp [h, resolveGate, awaitGate]
    · simp [resolveGate, awaitGate]
  · intro v
    unfold onBegin
    split
    · cases h : api.createTestRun <;> simp [h, resolveGate]
    · simp [resolveGate]

/-- Claim C5: every per-record upload task is never-rejecting: for every
record and every behaviour of the API client (including rejected calls,
modelled by Except.error), the tracked promise settles either to success
with a fulfilled chain, or to the failure variant carrying exactly the
error message of the rejected chain; no fault propagates past the final
catch. -/
theorem c5_task_never_rejects (api : ApiBehaviour) (sess : BeginState)
    (r : QARecord) (attachments : List AttachmentRef) :
    ((sendChain api sess r attachments).1 = .ok () ∧
      (taskOutcome api sess r attachments).1 = .success) ∨
    (∃ e, (sendChain api sess r attachments).1 = .error e ∧
      (taskOutcome api sess r attachments).1 = .failure e) := by
  unfold taskOutcome
  cases hc : sendChain api sess r attachments with
  | mk exc tr =>
    cases exc with
    | ok u =>
        left
        cases u
        exact ⟨rfl, rfl⟩
    | error e =>
        right
        exact ⟨e, rfl, rfl⟩

end QAStudioReporter

namespace QAStudioReporter

lemma runReporter_state (api : ApiBehaviour) (opts : Options) (steps : List RunStep) :
    (runReporter api opts steps).state
      = sendTestResults (runSteps api opts (initialRunState (onBegin opts api)) steps) :=
  onEnd_state _

lemma runReporter_summary_eq (api : ApiBehaviour) (opts : Options)
    (steps : List RunStep) (s : Summary)
    (h : (runReporter api opts steps).completedSummary = some s) :
    s = calculateUploadedCounts
          (sendTestResults (runSteps api opts (initialRunState (onBegin opts api)) steps)) :=
  onEnd_summary_eq _ s h

lemma final_failures_le_total (api : ApiBehaviour) (opts : Options) (steps : List RunStep) :
    (runReporter api opts steps).state.uploadFailures.length
      ≤ (runReporter api opts steps).state.counters.totalTests := by
  obtain ⟨h1, h2, h3⟩ := runSteps_streamInv api opts steps
      (initialRunState (onBegin opts api)) (initial_streamInv _)
  rw [runReporter_state, sendTestResults_counters]
  calc (sendTestResults (runSteps api opts (initialRunState (onBegin opts api))
          steps)).uploadFailures.length
      ≤ (runSteps api opts (initialRunState (onBegin opts api)) steps).flushPromises.length :=
        sendTestResults_uploadFailures_length _ h3
    _ = (runSteps api opts (initialRunState (onBegin opts api)) steps).counters.totalTests := h2

/-- Claim C2: for every run, whenever onEnd calls completeTestRun, the
total of the summary it passes equals the attempted total minus the
number of collected upload failures (stated additively, which also shows
the subtraction never underflows). -/
theorem c2_completed_summary_total (api : ApiBehaviour) (opts : Options)
    (steps : List RunStep) (s : Summary)
    (h : (runReporter api opts steps).completedSummary = some s) :
    s.total + (runReporter api opts steps).state.uploadFailures.length
      = (runReporter api opts steps).state.counters.totalTests := by
  have hs := runReporter_summary_eq api opts steps s h
  have hle := final_failures_le_total api opts steps
  rw [runReporter_state] at hle ⊢
  rw [sendTestResults_counters] at hle ⊢
  rw [hs]
  unfold calculateUploadedCounts
  rw [sendTestResults_counters]
  dsimp only
  omega

/-- Claim C7: in the summary passed to completeTestRun at onEnd, the
status buckets equal the execution counters (they are not reduced by
upload failures), their sum equals the attempted total, and therefore
the sum exceeds the reported uploaded total by exactly the number of
collected upload failures. -/
theorem c7_buckets_reflect_execution (api : ApiBehaviour) (opts : Options)
    (steps : List RunStep) (s : Summary)
    (h : (runReporter api opts steps).completedSummary = some s) :
    s.passed = (runReporter api opts steps).state.counters.passedTests ∧
    s.failed = (runReporter api opts steps).state.counters.failedTests ∧
    s.skipped = (runReporter api opts steps).state.counters.skippedTests ∧
    s.passed + s.failed + s.skipped
      = s.total + (runReporter api opts steps).state.uploadFailures.length := by
  obtain ⟨h1, h2, h3⟩ := runSteps_streamInv api opts steps
      (initialRunState (onBegin opts api)) (initial_streamInv _)
  have hs := runReporter_summary_eq api opts steps s h
  have hle := final_failures_le_total api opts steps
  rw [runReporter_state] at hle ⊢
  rw [sendTestResults_counters] at hle ⊢
  rw [hs]
  unfold calculateUploadedCounts
  rw [sendTestResults_counters]
  dsimp only
  refine ⟨rfl, rfl, rfl, ?_⟩
  omega

end QAStudioReporter

/-- Witness for claim C2: a concrete run (creation succeeds, the single
submission is rejected) on which the completed summary hypothesis holds
and the reconciled total satisfies the equation. -/
theorem c2_completed_summary_total_witness :
    (⟨0, 1, 0, 0⟩ : Summary).total
        + (QAStudioReporter.runReporter apiSubmitFail optsDefault
              stepsOnePassed).state.uploadFailures.length
      = (QAStudioReporter.runReporter apiSubmitFail optsDefault
            stepsOnePassed).state.counters.totalTests :=
  QAStudioReporter.c2_completed_summary_total apiSubmitFail optsDefault stepsOnePassed
    ⟨0, 1, 0, 0⟩ (by decide)

/-- Witness for claim C7: in the same concrete run the buckets stay at
the execution counts and their sum exceeds the uploaded total by the one
collected failure. -/
theorem c7_buckets_reflect_execution_witness :
    (⟨0, 1, 0, 0⟩ : Summary).passed
        = (QAStudioReporter.runReporter apiSubmitFail optsDefault
              stepsOnePassed).state.counters.passedTests ∧
    (⟨0, 1, 0, 0⟩ : Summary).failed
        = (QAStudioReporter.runReporter apiSubmitFail optsDefault
              stepsOnePassed).state.counters.failedTests ∧
    (⟨0, 1, 0, 0⟩ : Summary).skipped
        = (QAStudioReporter.runReporter apiSubmitFail optsDefault
              stepsOnePassed).state.counters.skippedTests ∧
    (⟨0, 1, 0, 0⟩ : Summary).passed + (⟨0, 1, 0, 0⟩ : Summary).failed
        + (⟨0, 1, 0, 0⟩ : Summary).skipped
      = (⟨0, 1, 0, 0⟩ : Summary).total
        + (QAStudioReporter.runReporter apiSubmitFail optsDefault
              stepsOnePassed).state.uploadFailures.length :=
  QAStudioReporter.c7_buckets_reflect_execution apiSubmitFail optsDefault stepsOnePassed
    ⟨0, 1, 0, 0⟩ (by decide)

/-- Claim C1 (evaluation at the failing input): when session creation
failed, the submitted record's task settles to its wrapped failure
outcome and stays tracked in flushPromises, but the drain step returns
early for the missing testRunId, so the outcome is never observed:
uploadFailures stays empty and the tracked list is not consumed,
contradicting the claim that no submitted outcome is lost when creation
failed before the drain. -/
theorem c1_drain_loses_outcome_on_creation_failure :
    (QAStudioReporter.runReporter apiQuota optsDefault stepsOnePassed).state.flushPromises.map
        QAStudioReporter.PendingUpload.outcome
      = [.failure "Test run creation failed: quota exceeded"] ∧
    (QAStudioReporter.runReporter apiQuota optsDefault stepsOnePassed).state.counters.totalTests
      = 1 ∧
    (QAStudioReporter.runReporter apiQuota optsDefault stepsOnePassed).state.uploadFailures
      = [] := by
  decide

/-- Claim C3 (evaluation at the failing input): session creation fails
with quota exceeded and five records are submitted; every tracked task
settles to the shared wrapped reason, yet after the drain onEnd collects
zero FailureRecords, emits no diagnostic at all (the deduplication
branch is unreachable), and never calls completeTestRun, contradicting
the claimed single deduplicated diagnostic, the five shared
FailureRecords and the uploadedTotal of zero. -/
theorem c3_scenario_b_no_dedup_diagnostic :
    (QAStudioReporter.runReporter apiQuota optsDefault stepsFivePassed).state.flushPromises.map
        QAStudioReporter.PendingUpload.outcome
      = List.replicate 5 (.failure "Test run creation failed: quota exceeded") ∧
    (QAStudioReporter.runReporter apiQuota optsDefault stepsFivePassed).state.uploadFailures
      = [] ∧
    (QAStudioReporter.runReporter apiQuota optsDefault stepsFivePassed).diagnostic = none ∧
    (QAStudioReporter.runReporter apiQuota optsDefault stepsFivePassed).completedSummary
      = none := by
  decide

namespace QAStudioReporter

/-- Claim C6: if the primary submission succeeds and returns result
identifiers, the task outcome is success for every attachment-upload
behaviour (a rejected attachment upload is caught and logged, never
rethrown), the action trace submits the record strictly before the
attachment uploads, and conversely any attachment upload in a task trace
happens only after a fulfilled submission returning identifiers, using
the first returned testResultId. -/
theorem c6_attachment_failure_keeps_success (api : ApiBehaviour) (runId : String)
    (sess : BeginState) (r : QARecord) (attachments : List AttachmentRef)
    (resp : SubmitResponse) (rid : ResultIdEntry) (rest : List ResultIdEntry)
    (hsess : sess.testRunId = some runId)
    (hok : api.submitTestResults runId [r] = .ok resp)
    (hres : resp.results = rid :: rest) :
    (taskOutcome api sess r attachments).1 = .success ∧
    (taskOutcome api sess r attachments).2
      = .submitResults [r.title] ::
          (if attachments.isEmpty then []
           else uploadAttachments api rid.testResultId attachments) ∧
    (∀ (api2 : ApiBehaviour) (runId2 : String) (r2 : QARecord)
        (atts2 : List AttachmentRef) (tid nm : String) (oc : Except String Unit),
        Action.uploadAtt tid nm oc ∈ (sendTestResult api2 (some runId2) r2 atts2).2 →
        ∃ resp2 rid2 rest2,
          api2.submitTestResults runId2 [r2] = .ok resp2 ∧
          resp2.results = rid2 :: rest2 ∧ tid = rid2.testResultId) := by
  have hchain : sendChain api sess r attachments
      = (.ok (), .submitResults [r.title] ::
          (if attachments.isEmpty then []
           else uploadAttachments api rid.testResultId attachments)) := by
    unfold sendChain
    rw [hsess]
    unfold sendTestResult
    dsimp only
    rw [hok]
    dsimp only
    rw [hres]
    by_cases ha : attachments.isEmpty <;> simp [ha]
  refine ⟨?_, ?_, ?_⟩
  · unfold taskOutcome
    rw [hchain]
  · unfold taskOutcome
    rw [hchain]
  · intro api2 runId2 r2 atts2 tid nm oc hmem
    unfold sendTestResult at hmem
    dsimp only at hmem
    cases hok2 : api2.submitTestResults runId2 [r2] with
    | error e =>
        rw [hok2] at hmem
        simp at hmem
    | ok resp2 =>
        rw [hok2] at hmem
        dsimp only at hmem
        cases hres2 : resp2.results with
        | nil =>
            rw [hres2] at hmem
            simp at hmem
        | cons rid2 rest2 =>
            rw [hres2] at hmem
            by_cases ha : atts2.isEmpty
            · simp [ha] at hmem
            · simp only [ha, Bool.false_eq_true, if_false, List.mem_cons] at hmem
              rcases hmem with hmem | hmem
              · exact absurd hmem (by simp)
              · refine ⟨resp2, rid2, rest2, rfl, hres2, ?_⟩
                simp only [uploadAttachments, List.mem_map] at hmem
                obtain ⟨a, _, ha2⟩ := hmem
                injection ha2 with e1 e2 e3
                exact e1.symm

end QAStudioReporter

/-- Witness for claim C6: with a fulfilled submission and a rejected
attachment upload, the concrete task outcome is still success. -/
theorem c6_attachment_failure_keeps_success_witness :
    (QAStudioReporter.taskOutcome apiAttachmentFail sessReady recordT1 oneScreenshot).1
      = UploadOutcome.success :=
  (QAStudioReporter.c6_attachment_failure_keeps_success apiAttachmentFail "run-1" sessReady
    recordT1 oneScreenshot
    { processedCount := 1
    , results := [{ testResultId := "res-1", title := "t1" }]
    , errors := [] }
    { testResultId := "res-1", title := "t1" } [] rfl rfl rfl).1

/-- Claim C8: after any sequence of reporter callbacks, in both variants
the attempted counters satisfy totalTests = passedTests + failedTests +
skippedTests; the final-retry update adds one to the total and exactly
one to the bucket sum (passed to passed, failed and timedOut to failed,
skipped and interrupted to skipped), and every other onTestEnd call
leaves the counters unchanged. -/
theorem c8_counters_invariant (api : ApiBehaviour) (opts : Options) (steps : List RunStep) :
    ((QAStudioReporter.runSteps api opts
          (QAStudioReporter.initialRunState (QAStudioReporter.onBegin opts api))
          steps).counters.totalTests
        = (QAStudioReporter.runSteps api opts
            (QAStudioReporter.initialRunState (QAStudioReporter.onBegin opts api))
            steps).counters.passedTests
          + (QAStudioReporter.runSteps api opts
              (QAStudioReporter.initialRunState (QAStudioReporter.onBegin opts api))
              steps).counters.failedTests
          + (QAStudioReporter.runSteps api opts
              (QAStudioReporter.initialRunState (QAStudioReporter.onBegin opts api))
              steps).counters.skippedTests) ∧
    ((QAStudioReporterBatched.runSteps api opts
          (QAStudioReporterBatched.initialState (QAStudioReporterBatched.onBegin opts api))
          steps).counters.totalTests
        = (QAStudioReporterBatched.runSteps api opts
            (QAStudioReporterBatched.initialState (QAStudioReporterBatched.onBegin opts api))
            steps).counters.passedTests
          + (QAStudioReporterBatched.runSteps api opts
              (QAStudioReporterBatched.initialState (QAStudioReporterBatched.onBegin opts api))
              steps).counters.failedTests
          + (QAStudioReporterBatched.runSteps api opts
              (QAStudioReporterBatched.initialState (QAStudioReporterBatched.onBegin opts api))
              steps).counters.skippedTests) ∧
    (∀ (c : Counters) (s : PwStatus),
        (bumpCounters c s).totalTests = c.totalTests + 1 ∧
        (bumpCounters c s).passedTests + (bumpCounters c s).failedTests
            + (bumpCounters c s).skippedTests
          = c.passedTests + c.failedTests + c.skippedTests + 1) ∧
    (∀ (st : QAStudioReporter.RunState) (e : TestEvent),
        (QAStudioReporter.onTestEnd api opts st e).counters
          = if st.tests.contains e.title ∧ e.retry = e.retries
            then bumpCounters st.counters e.status else st.counters) ∧
    (∀ (st : QAStudioReporterBatched.BRunState) (e : TestEvent),
        (QAStudioReporterBatched.onTestEnd api opts st e).counters
          = if st.tests.contains e.title ∧ e.retry = e.retries
            then bumpCounters st.counters e.status else st.counters) := by
  refine ⟨?_, ?_, ?_, ?_, ?_⟩
  · exact (QAStudioReporter.runSteps_streamInv api opts steps
      (QAStudioReporter.initialRunState (QAStudioReporter.onBegin opts api))
      (QAStudioReporter.initial_streamInv _)).1
  · exact QAStudioReporterBatched.runSteps_counters_consistent api opts steps
      (QAStudioReporterBatched.initialState (QAStudioReporterBatched.onBegin opts api)) rfl
  · intro c s
    exact ⟨QAStudioReporter.bumpCounters_totalTests c s,
      QAStudioReporter.bumpCounters_bucketSum c s⟩
  · intro st e
    exact QAStudioReporter.onTestEnd_counters api opts st e
  · intro st e
    exact QAStudioReporterBatched.onTestEnd_counters_batched api opts st e

/-- Claim C10: mapTestStatus is total on status strings: passed, failed,
timedOut, skipped and interrupted map to their wire statuses (interrupted
is reported as skipped), every other string maps to failed, and the
result is always one of the four declared wire values. -/
theorem c10_mapTestStatus_total (s : String)
    (h1 : s ≠ "passed") (h2 : s ≠ "failed") (h3 : s ≠ "timedOut")
    (h4 : s ≠ "skipped") (h5 : s ≠ "interrupted") :
    mapTestStatus "passed" = "passed" ∧
    mapTestStatus "failed" = "failed" ∧
    mapTestStatus "timedOut" = "timedout" ∧
    mapTestStatus "skipped" = "skipped" ∧
    mapTestStatus "interrupted" = "skipped" ∧
    mapTestStatus s = "failed" ∧
    (∀ t, mapTestStatus t = "passed" ∨ mapTestStatus t = "failed" ∨
      mapTestStatus t = "skipped" ∨ mapTestStatus t = "timedout") := by
  refine ⟨rfl, rfl, rfl, rfl, rfl, ?_, ?_⟩
  · unfold mapTestStatus
    split <;> simp_all
  · intro t
    unfold mapTestStatus
    split <;> simp

/-- Witness for claim C10: a status string outside the five recognized
values maps to failed, and the recognized values map as claimed. -/
theorem c10_mapTestStatus_total_witness :
    mapTestStatus "passed" = "passed" ∧
    mapTestStatus "failed" = "failed" ∧
    mapTestStatus "timedOut" = "timedout" ∧
    mapTestStatus "skipped" = "skipped" ∧
    mapTestStatus "interrupted" = "skipped" ∧
    mapTestStatus "flaky" = "failed" ∧
    (∀ t, mapTestStatus t = "passed" ∨ mapTestStatus t = "failed" ∨
      mapTestStatus t = "skipped" ∨ mapTestStatus t = "timedout") :=
  c10_mapTestStatus_total "flaky" (by decide) (by decide) (by decide) (by decide) (by decide)

namespace QAStudioReporterBatched

lemma flushResults_flushLog_length (api : ApiBehaviour) (st : BRunState) :
    (flushResults api st).flushLog.length
      = st.flushLog.length
        + (if st.testRunId.isSome ∧ st.resultQueue.length > 0 then 1 else 0) := by
  unfold flushResults
  cases hid : st.testRunId with
  | none => simp [hid]
  | some runId =>
      dsimp only
      by_cases hq : st.resultQueue.isEmpty
      · rw [if_pos hq]
        have hz : st.resultQueue.length = 0 := by
          simpa [List.isEmpty_iff_length_eq_zero] using hq
        simp [hid, hz]
      · rw [if_neg (by simpa using hq)]
        have hlen : st.resultQueue.length > 0 := by
          rw [List.isEmpty_iff] at hq
          exact List.length_pos.mpr hq
        cases hapi : api.submitTestResults runId (st.resultQueue.map QueueItem.result) <;>
          simp [hid, hlen]

lemma flushResults_flushLog (api : ApiBehaviour) (st : BRunState)
    (runId : String) (hid : st.testRunId = some runId) (hq : st.resultQueue ≠ []) :
    (flushResults api st).flushLog
      = st.flushLog ++
          [{ submittedTitles := (st.resultQueue.map QueueItem.result).map QARecord.title
           , outcome := api.submitTestResults runId (st.resultQueue.map QueueItem.result) }] := by
  unfold flushResults
  rw [hid]
  dsimp only
  rw [if_neg (by simp [hq])]
  cases hapi : api.submitTestResults runId (st.resultQueue.map QueueItem.result) <;> simp

/-- Claim C9: in batched mode a flush submits every currently queued
record in one request; a rejected batch request leaves the queue
unchanged; a fulfilled response removes from the queue only items whose
title the remote service confirmed as processed, never adding items; and
a flush is triggered by onTestEnd exactly when the queue length reaches
batchSize after enqueueing, plus once at drain when the queue is
nonempty. -/
theorem c9_batched_flush_semantics (api : ApiBehaviour) (opts : Options)
    (st : BRunState) (runId : String)
    (hid : st.testRunId = some runId) (hq : st.resultQueue ≠ []) :
    ((flushResults api st).flushLog
        = st.flushLog ++
            [{ submittedTitles := (st.resultQueue.map QueueItem.result).map QARecord.title
             , outcome := api.submitTestResults runId (st.resultQueue.map QueueItem.result) }]) ∧
    (∀ e, api.submitTestResults runId (st.resultQueue.map QueueItem.result) = .error e →
        (flushResults api st).resultQueue = st.resultQueue) ∧
    (∀ resp, api.submitTestResults runId (st.resultQueue.map QueueItem.result) = .ok resp →
        (∀ item, item ∈ st.resultQueue → item ∉ (flushResults api st).resultQueue →
            item.result.title ∈ resp.results.map ResultIdEntry.title) ∧
        (∀ item, item ∈ (flushResults api st).resultQueue → item ∈ st.resultQueue)) ∧
    (∀ (st2 : BRunState) (e : TestEvent),
        (onTestEnd api opts st2 e).flushLog.length
          = st2.flushLog.length +
              (if st2.tests.contains e.title ∧ e.retry = e.retries ∧ st2.testRunId.isSome
                  ∧ st2.resultQueue.length + 1 ≥ opts.batchSize
               then 1 else 0)) ∧
    (∀ st2 : BRunState,
        (sendTestResults api st2).flushLog.length
          = st2.flushLog.length +
              (if st2.testRunId.isSome ∧ st2.resultQueue.length > 0 then 1 else 0)) := by
  refine ⟨flushResults_flushLog api st runId hid hq, ?_, ?_, ?_, ?_⟩
  · intro e he
    unfold flushResults
    rw [hid]
    dsimp only
    rw [if_neg (by simp [hq]), he]
  · intro resp hr
    unfold flushResults
    rw [hid]
    dsimp only
    rw [if_neg (by simp [hq]), hr]
    dsimp only
    constructor
    · intro item hin hnotin
      by_cases hlen : resp.results.length > 0
      · rw [if_pos hlen] at hnotin
        simp only [List.mem_filter, Bool.not_eq_true'] at hnotin
        have := fun hcontains => hnotin ⟨hin, hcontains⟩
        by_cases hc : (resp.results.map ResultIdEntry.title).contains item.result.title
        · simpa using hc
        · exact absurd (by simpa using hc) (by simpa using this (by simpa using hc))
      · exact absurd hin (by rw [if_neg hlen] at hnotin; exact hnotin)
    · intro item hin
      by_cases hlen : resp.results.length > 0
      · rw [if_pos hlen] at hin
        exact (List.mem_filter.mp hin).1
      · rw [if_neg hlen] at hin
        exact hin
  · intro st2 e
    unfold onTestEnd
    by_cases hfound : e.title ∈ st2.tests
    · by_cases hfinal : e.retry = e.retries
      · cases hid2 : st2.testRunId with
        | none => simp [hfound, hfinal, hid2]
        | some runId2 =>
            by_cases hbs : opts.batchSize ≤ st2.resultQueue.length + 1
            · simp [hfound, hfinal, hid2, hbs, flushResults_flushLog_length]
            · simp [hfound, hfinal, hid2, hbs]
      · simp [hfound, hfinal]
    · simp [hfound]
  · intro st2
    unfold sendTestResults
    cases hid2 : st2.testRunId with
    | none => simp [hid2]
    | some runId2 =>
        dsimp only
        by_cases hlen : st2.resultQueue.length > 0
        · rw [if_pos hlen]
          simp [flushResults_flushLog_length, hid2, hlen]
        · rw [if_neg hlen]
          simp [hlen, hid2]

end QAStudioReporterBatched

/-- Witness for claim C9: on a concrete queued state whose batch request
is rejected, the queue is left unchanged for the next flush trigger. -/
theorem c9_batched_flush_semantics_witness :
    (QAStudioReporterBatched.flushResults apiBatchReject queuedBatchState).resultQueue
      = queuedBatchState.resultQueue :=
  (QAStudioReporterBatched.c9_batched_flush_semantics apiBatchReject optsDefault
      queuedBatchState "run-1" rfl (by decide)).2.1 "service unavailable" rfl
